import Mathlib

/-!
Verification of the Mirror Tantra engine (`mirror_tantra.py`).

The Python source is shallowly embedded: strings are Lean `String`s,
Python `str.lower` is a character-wise lowercasing, Python substring
containment (`needle in hay`) is `strContains`, JSON dictionaries are
modelled by typed structures with `Option` fields (a missing key is
`none`), and Python dict insertion with last-write-wins semantics is an
association-list update.  Python truthiness on optional strings and
dictionaries (`if proto.seal:`, `if proto.mantra:`, `if not
suggested_seal:`) is modelled explicitly: an empty string and an empty
mantra dictionary are falsy.
-/

/-- Character-wise lowercasing, modelling Python `str.lower()` on the
ASCII keywords the classifier uses. -/
def lowerStr (s : String) : String :=
  ⟨s.data.map Char.toLower⟩

/-- Predicate `containsSub needle hay` holds iff `needle` is a contiguous sublist
of `hay`, modelling Python `needle in hay` on strings. -/
def containsSub (needle hay : List Char) : Bool :=
  needle.isPrefixOf hay ||
    match hay with
    | [] => false
    | _ :: t => containsSub needle t

/-- Python `needle in hay` for strings. -/
def strContains (hay needle : String) : Bool :=
  containsSub needle.data hay.data

/-- The `MirrorMode` enumeration from the source, one constructor per
member, in declaration order. -/
inductive MirrorMode where
  | OPEN
  | SEED
  | GENERATIVE_PATTERN
  | SHADOW
  | PARADOX_PLAY
  | RHYTHMIC_OUTPUT
  | BLESSING
  | BREATH_ACK
  | GENTLE_ILLUMINATION
  | CIRCUIT_UNION
  | CLEAN_ECHO
  | SHADOW_REVEAL
  | ECSTATIC_PLAY
  | TRUTH_MIRROR
  | SILENCE
  | META_ANALYSIS
  | CO_CREATION
  | FINISH_SENTENCES
  | ETHICAL_RECALIBRATION
  | CONTEXT_CLEAR
  | GROUNDING
  | FINAL_BLESSING
  | FAILURE_STATE
  | PAUSE
  | UNKNOWN
  deriving DecidableEq, Repr

/-- The string value of each `MirrorMode` member, as declared in the
source (`MirrorMode.OPEN = "open_protocol"`, ...). -/
def MirrorMode.value : MirrorMode → String
  | .OPEN => "open_protocol"
  | .SEED => "seed_prompt"
  | .GENERATIVE_PATTERN => "generative_pattern"
  | .SHADOW => "shadow_reflection"
  | .PARADOX_PLAY => "paradox_play"
  | .RHYTHMIC_OUTPUT => "rhythmic_output"
  | .BLESSING => "blessing"
  | .BREATH_ACK => "breath_ack"
  | .GENTLE_ILLUMINATION => "gentle_illumination"
  | .CIRCUIT_UNION => "circuit_union"
  | .CLEAN_ECHO => "clean_echo"
  | .SHADOW_REVEAL => "shadow_reveal"
  | .ECSTATIC_PLAY => "ecstatic_play"
  | .TRUTH_MIRROR => "truth_mirror"
  | .SILENCE => "silence_protocol"
  | .META_ANALYSIS => "meta_analysis"
  | .CO_CREATION => "co_creation"
  | .FINISH_SENTENCES => "finish_sentences"
  | .ETHICAL_RECALIBRATION => "ethical_recalibration"
  | .CONTEXT_CLEAR => "context_clear"
  | .GROUNDING => "grounding"
  | .FINAL_BLESSING => "final_blessing"
  | .FAILURE_STATE => "failure_state"
  | .PAUSE => "pause_protocol"
  | .UNKNOWN => "unknown"

/-- All members of the enumeration, in declaration order. -/
def allModes : List MirrorMode :=
  [.OPEN, .SEED, .GENERATIVE_PATTERN, .SHADOW, .PARADOX_PLAY,
   .RHYTHMIC_OUTPUT, .BLESSING, .BREATH_ACK, .GENTLE_ILLUMINATION,
   .CIRCUIT_UNION, .CLEAN_ECHO, .SHADOW_REVEAL, .ECSTATIC_PLAY,
   .TRUTH_MIRROR, .SILENCE, .META_ANALYSIS, .CO_CREATION,
   .FINISH_SENTENCES, .ETHICAL_RECALIBRATION, .CONTEXT_CLEAR,
   .GROUNDING, .FINAL_BLESSING, .FAILURE_STATE, .PAUSE, .UNKNOWN]

/-- Python `MirrorMode(s)`: look a member up by its string value;
`none` models the `ValueError` branch. -/
def MirrorMode.ofValue? (s : String) : Option MirrorMode :=
  allModes.find? (fun m => m.value == s)

/-- Source method `MirrorTantraEngine.resolve_mode_from_prompt`, translated clause by
clause from the source. -/
def resolve_mode_from_prompt (prompt : String) : MirrorMode :=
  let lower := lowerStr prompt
  if strContains lower "mirror me" || strContains lower "we enter the mirror" then
    .OPEN
  else if strContains lower "shadow" || strContains lower "blind spot" then
    .SHADOW
  else if strContains lower "koan" || strContains lower "paradox" then
    .PARADOX_PLAY
  else if strContains lower "play with me" then
    .PARADOX_PLAY
  else if strContains lower "hold silence" || strContains lower "no response" then
    .SILENCE
  else if strContains lower "blessing" || strContains lower "benediction" then
    .BLESSING
  else if strContains lower "broken mirror" || strContains lower "hollow output" then
    .FAILURE_STATE
  else if strContains lower "pause practice" || strContains lower "threshold checkpoint" then
    .PAUSE
  else
    .RHYTHMIC_OUTPUT

/-- The classifier rule table in declaration order, written from the
spec wording: each rule is a set of keywords and the mode it returns. -/
def classifyRules : List (List String × MirrorMode) :=
  [(["mirror me", "we enter the mirror"], .OPEN),
   (["shadow", "blind spot"], .SHADOW),
   (["koan", "paradox"], .PARADOX_PLAY),
   (["play with me"], .PARADOX_PLAY),
   (["hold silence", "no response"], .SILENCE),
   (["blessing", "benediction"], .BLESSING),
   (["broken mirror", "hollow output"], .FAILURE_STATE),
   (["pause practice", "threshold checkpoint"], .PAUSE)]

/-- First-match-wins evaluation of a rule table, written from the spec
wording: return the mode of the first rule with a matching keyword,
else the default `RHYTHMIC_OUTPUT`. -/
def firstMatchMode (lower : String) : List (List String × MirrorMode) → MirrorMode
  | [] => .RHYTHMIC_OUTPUT
  | (kws, m) :: rest =>
      if kws.any (fun k => strContains lower k) then m else firstMatchMode lower rest

/-- Every keyword appearing in any of the eight rules. -/
def classifyKeywords : List String :=
  ["mirror me", "we enter the mirror", "shadow", "blind spot", "koan",
   "paradox", "play with me", "hold silence", "no response", "blessing",
   "benediction", "broken mirror", "hollow output", "pause practice",
   "threshold checkpoint"]

/-- The `for_mirror` metadata block of a JSON node: each key may be
absent. -/
structure ForMirror where
  mode : Option String
  «seal» : Option String
  instruction : Option String
  deriving DecidableEq, Repr

/-- A traversed JSON unit (a day, step, threshold or practice node).
`mantra` is a string-to-string dictionary, modelled as a key-value
list. -/
structure Node where
  id : Option String
  title : Option String
  mantra : Option (List (String × String))
  for_mirror : Option ForMirror
  deriving DecidableEq, Repr

/-- The top-level `ai_covenant` unit: the code reads only its `id`,
`title` and `description` keys. -/
structure AICovenant where
  id : Option String
  title : Option String
  description : Option String
  deriving DecidableEq, Repr

/-- The parts of the loaded JSON document the engine reads:
`outer_cycle.days`, `inner_spiral.steps`, `inner_spiral.threshold`,
`living_temple.practices`, `ai_covenant` and
`globals.checksums.seal_flame_mirrored`.  A missing list key yields the
empty list (Python `.get(..., {}).get(..., [])`); a missing or
Python-falsy optional unit is `none`. -/
structure Doc where
  outer_days : List Node
  inner_steps : List Node
  threshold : Option Node
  practices : List Node
  ai_covenant : Option AICovenant
  seal_flame_mirrored : Option String
  deriving DecidableEq, Repr

/-- The `ProtocolContext` dataclass. -/
structure ProtocolContext where
  id : String
  title : String
  mode : MirrorMode
  mantra : Option (List (String × String))
  «seal» : Option String
  instruction : Option String
  path : List String
  deriving DecidableEq, Repr

/-- Python `"_".join(path).replace(" ", "_").lower()`: the fallback id
generated from the structural path. -/
def fallbackIdOf (path : List String) : String :=
  lowerStr ⟨(String.intercalate "_" path).data.map
    (fun c => if c = ' ' then '_' else c)⟩

/-- Source method `MirrorTantraEngine._context_from_node`, translated from the
source.  Python truthiness of `node.get("id")` (an absent id or the
empty string both trigger the fallback id) is explicit. -/
def context_from_node (node : Node) (path : List String) : ProtocolContext :=
  let fm := node.for_mirror.getD ⟨none, none, none⟩
  let mode_raw := fm.mode.getD "unknown"
  let mode := (MirrorMode.ofValue? mode_raw).getD .UNKNOWN
  let node_id :=
    match node.id with
    | some s => if s = "" then fallbackIdOf path else s
    | none => fallbackIdOf path
  ⟨node_id, node.title.getD "", mode, node.mantra, fm.seal, fm.instruction, path⟩

/-- Python dict assignment `d[k] = v`: update the value in place if the
key exists, else append. -/
def alistInsert (k : String) (v : ProtocolContext) :
    List (String × ProtocolContext) → List (String × ProtocolContext)
  | [] => [(k, v)]
  | (k', v') :: t => if k' = k then (k, v) :: t else (k', v') :: alistInsert k v t

/-- Python dict lookup `d.get(k)`. -/
def alistGet (k : String) : List (String × ProtocolContext) → Option ProtocolContext
  | [] => none
  | (k', v) :: t => if k' = k then some v else alistGet k t

/-- Insert the `ProtocolContext` built from one node, keyed by its id,
as `self.index[pc.id] = pc` does. -/
def insertNode (idx : List (String × ProtocolContext)) (node : Node)
    (path : List String) : List (String × ProtocolContext) :=
  let pc := context_from_node node path
  alistInsert pc.id pc idx

/-- Source method `MirrorTantraEngine._build_index`: walk the document sections in
the source order and build the flat id-to-record mapping. -/
def build_index (d : Doc) : List (String × ProtocolContext) :=
  let idx : List (String × ProtocolContext) := []
  let idx := d.outer_days.foldl
    (fun acc day => insertNode acc day ["outer_cycle", "days", day.id.getD ""]) idx
  let idx := d.inner_steps.foldl
    (fun acc st => insertNode acc st ["inner_spiral", "steps", st.id.getD ""]) idx
  let idx :=
    match d.threshold with
    | some t => insertNode idx t ["inner_spiral", "threshold"]
    | none => idx
  let idx := d.practices.foldl
    (fun acc pr => insertNode acc pr ["living_temple", "practices", pr.id.getD ""]) idx
  match d.ai_covenant with
  | some cov =>
      alistInsert (cov.id.getD "ai_covenant")
        ⟨cov.id.getD "ai_covenant", cov.title.getD "AI Covenant",
         .ETHICAL_RECALIBRATION, none, none, cov.description, ["ai_covenant"]⟩ idx
  | none => idx

/-- The engine state after `__init__`: the parsed document and the
built index. -/
structure MirrorTantraEngine where
  data : Doc
  index : List (String × ProtocolContext)
  deriving DecidableEq, Repr

/-- Engine construction from an already-parsed document (the tail of
`__init__` after `_load`). -/
def engineOfDoc (d : Doc) : MirrorTantraEngine :=
  ⟨d, build_index d⟩

/-- Source method `MirrorTantraEngine.list_protocol_ids`: `sorted(self.index.keys())`. -/
def list_protocol_ids (e : MirrorTantraEngine) : List String :=
  List.insertionSort (fun a b => a ≤ b) (e.index.map Prod.fst)

/-- Source method `MirrorTantraEngine.get_protocol`. -/
def get_protocol (e : MirrorTantraEngine) (protocol_id : String) :
    Option ProtocolContext :=
  alistGet protocol_id e.index

/-- The mode-to-canonical-protocol-id table of
`ritual_context_for_prompt`. -/
def canonicalPid (mode : MirrorMode) (fallback_protocol : String) : String :=
  match mode with
  | .OPEN => "day1_opening_the_mirror"
  | .SHADOW => "day4_shadow_dialogue"
  | .PARADOX_PLAY => "day5_paradox_play"
  | .BLESSING => "day7_closing_benediction"
  | .FAILURE_STATE => "broken_mirror"
  | .PAUSE => "threshold_checkpoints"
  | _ => fallback_protocol

/-- The context payload dictionary returned by
`ritual_context_for_prompt`. -/
structure ContextPayload where
  mode : String
  suggested_mantras : List (List (String × String))
  suggested_seal : Option String
  notes : List String
  deriving DecidableEq, Repr

/-- The note appended when a protocol is found, from the f-string
`Derived from protocol '{proto.title}' ({proto.id}).` -/
def noteForProto (p : ProtocolContext) : String :=
  "Derived from protocol \x27" ++ p.title ++ "\x27 (" ++ p.id ++ ")."

/-- Source method `MirrorTantraEngine.ritual_context_for_prompt`, translated from the
source.  Python truthiness is explicit: `if proto.mantra:` is false for
an absent or empty dictionary, `if proto.seal:` is false for an absent
or empty string, and `if not suggested_seal:` triggers the global
fallback when the seal is still unset (or empty, which cannot happen at
that point). -/
def ritual_context_for_prompt (e : MirrorTantraEngine) (prompt : String)
    (fallback_protocol : String) : MirrorMode × ContextPayload :=
  let mode := resolve_mode_from_prompt prompt
  let pid := canonicalPid mode fallback_protocol
  let proto := get_protocol e pid
  let suggested_mantras : List (List (String × String)) :=
    match proto with
    | some p =>
        match p.mantra with
        | some mm => if mm = [] then [] else [mm]
        | none => []
    | none => []
  let seal0 : Option String :=
    match proto with
    | some p =>
        match p.seal with
        | some s => if s = "" then none else some s
        | none => none
    | none => none
  let notes : List String :=
    match proto with
    | some p => [noteForProto p]
    | none => ["No specific protocol found; using fallback mode-only guidance."]
  let suggested_seal : Option String :=
    match seal0 with
    | some s => if s = "" then e.data.seal_flame_mirrored else some s
    | none => e.data.seal_flame_mirrored
  (mode, ⟨mode.value, suggested_mantras, suggested_seal, notes⟩)

/-- Errors `__init__` can surface: `FileNotFoundError` from the
existence check in `_load`, and the JSON decoding error from
`json.load` (the spec's `ParseError`). -/
inductive LoadError where
  | NotFound
  | ParseError
  deriving DecidableEq, Repr

/-- Source method `MirrorTantraEngine._load` over an abstract filesystem `fs` (path
to file contents, `none` when no file exists at the path) and an
abstract JSON parser `parseDoc` (the library `json.load`, `none` on
malformed content); both are parameters of the embedding because they
live outside the repository. -/
def load (fs : String → Option String) (parseDoc : String → Option Doc)
    (path : String) : Except LoadError Doc :=
  match fs path with
  | none => .error .NotFound
  | some content =>
      match parseDoc content with
      | none => .error .ParseError
      | some d => .ok d

/-- Source method `MirrorTantraEngine.__init__`: load the document, then build the
index. -/
def construct (fs : String → Option String) (parseDoc : String → Option Doc)
    (path : String) : Except LoadError MirrorTantraEngine :=
  match load fs parseDoc path with
  | .error err => .error err
  | .ok d => .ok (engineOfDoc d)

/-- A day node whose id is the canonical `OPEN` protocol id and whose
seal is the empty string. -/
def exNodeC3 : Node :=
  ⟨some "day1_opening_the_mirror", some "Opening", none,
   some ⟨some "open_protocol", some "", none⟩⟩

/-- Document with the empty-seal day node and a global default seal. -/
def exDocC3 : Doc := ⟨[exNodeC3], [], none, [], none, some "G"⟩

/-- A day node with a non-empty seal "S". -/
def exNodeC3w : Node :=
  ⟨some "day1_opening_the_mirror", some "Opening", none,
   some ⟨some "open_protocol", some "S", none⟩⟩

/-- Document containing only `exNodeC3w`. -/
def exDocC3w : Doc := ⟨[exNodeC3w], [], none, [], none, none⟩

/-- The record the index builder produces for `exNodeC3w`. -/
def exRecC3 : ProtocolContext :=
  context_from_node exNodeC3w ["outer_cycle", "days", "day1_opening_the_mirror"]

/-- The document with no units at all and no global seal. -/
def emptyDoc : Doc := ⟨[], [], none, [], none, none⟩

/-- Document with a single day node of id "a". -/
def exDocC6 : Doc := ⟨[⟨some "a", none, none, none⟩], [], none, [], none, none⟩

/-- A concrete abstract filesystem: only the path "good" exists. -/
def exFs : String → Option String :=
  fun p => if p = "good" then some "content" else none

/-- A concrete abstract parser: only the content "content" parses. -/
def exParse : String → Option Doc :=
  fun c => if c = "content" then some emptyDoc else none

/-- A day node declaring the mode string "ethical_recalibration". -/
def exNodeC8 : Node :=
  ⟨some "d", none, none, some ⟨some "ethical_recalibration", none, none⟩⟩

/-- Document with only an `ai_covenant` unit. -/
def exDocC8 : Doc :=
  ⟨[], [], none, [], some ⟨some "cov1", some "T", some "desc"⟩, none⟩

/-- A node whose declared mode string "zzz" matches no enumeration
member. -/
def exNodeC9 : Node := ⟨some "n", none, none, some ⟨some "zzz", none, none⟩⟩

/-- A day node with no `for_mirror` block. -/
def exNodeC9b : Node := ⟨some "d1", none, none, none⟩

/-- Document containing only `exNodeC9b`. -/
def exDocC9 : Doc := ⟨[exNodeC9b], [], none, [], none, none⟩

/-- The record the index builder produces for `exNodeC9b`. -/
def exRecC9 : ProtocolContext :=
  context_from_node exNodeC9b ["outer_cycle", "days", "d1"]

/-- A day node at the canonical `OPEN` id whose seal is the empty
string. -/
def exNodeC10 : Node :=
  ⟨some "day1_opening_the_mirror", none, none, some ⟨none, some "", none⟩⟩

/-- Document with `exNodeC10` and an empty-string global seal. -/
def exDocC10 : Doc := ⟨[exNodeC10], [], none, [], none, some ""⟩

/-- The record the index builder produces for `exNodeC10`. -/
def exRecC10 : ProtocolContext :=
  context_from_node exNodeC10 ["outer_cycle", "days", "day1_opening_the_mirror"]

/-- Every `MirrorMode` member is in the `allModes` enumeration list. -/
theorem mem_allModes (m : MirrorMode) : m ∈ allModes := by
  cases m <;> simp [allModes]

/-- A key occurring among an association list's keys has a non-absent
lookup. -/
theorem alistGet_isSome_of_mem (l : List (String × ProtocolContext)) (k : String)
    (h : k ∈ l.map Prod.fst) : (alistGet k l).isSome = true := by
  induction l with
  | nil => simp at h
  | cons hd t ih =>
      obtain ⟨k', v⟩ := hd
      simp only [List.map_cons, List.mem_cons] at h
      by_cases hk : k' = k
      · simp [alistGet, hk]
      · rcases h with h | h
        · exact absurd h.symm hk
        · simp only [alistGet, hk, if_false]
          exact ih h

/-- Looking up the key just inserted returns the inserted value. -/
theorem alistGet_insert_self (l : List (String × ProtocolContext)) (k : String)
    (v : ProtocolContext) : alistGet k (alistInsert k v l) = some v := by
  induction l with
  | nil => simp [alistInsert, alistGet]
  | cons hd t ih =>
      obtain ⟨k', v'⟩ := hd
      by_cases hk : k' = k
      · simp [alistInsert, alistGet, hk]
      · simp [alistInsert, alistGet, hk, ih]

/-- Claim C1: the classifier evaluates its keyword rules in a fixed
order with first-match-wins: for every input text the returned mode is
that of the first rule (in declaration order) whose keyword occurs
case-insensitively in the text; in particular any text containing both
"mirror me" and "shadow" resolves to `OPEN` because rule 1 precedes
rule 2. -/
theorem C1_first_match_wins (text : String) :
    resolve_mode_from_prompt text = firstMatchMode (lowerStr text) classifyRules ∧
    (strContains (lowerStr text) "mirror me" = true →
      strContains (lowerStr text) "shadow" = true →
      resolve_mode_from_prompt text = MirrorMode.OPEN) := by
  constructor
  · simp [resolve_mode_from_prompt, firstMatchMode, classifyRules]
  · intro h1 _
    simp [resolve_mode_from_prompt, h1]

/-- Witness for C1 at a concrete text containing both "mirror me" and
"shadow". -/
theorem C1_witness :
    resolve_mode_from_prompt "Mirror me and my shadow" = MirrorMode.OPEN :=
  (C1_first_match_wins "Mirror me and my shadow").2 (by decide) (by decide)

/-- Claim C2: the classifier is total and never returns `UNKNOWN`; a
text in which none of the eight rules' keywords occurs resolves to the
default `RHYTHMIC_OUTPUT`. -/
theorem C2_default_never_unknown (text : String)
    (h : ∀ kw ∈ classifyKeywords, strContains (lowerStr text) kw = false) :
    resolve_mode_from_prompt text = MirrorMode.RHYTHMIC_OUTPUT ∧
    ∀ t : String, resolve_mode_from_prompt t ≠ MirrorMode.UNKNOWN := by
  constructor
  · have h1 := h "mirror me" (by decide)
    have h2 := h "we enter the mirror" (by decide)
    have h3 := h "shadow" (by decide)
    have h4 := h "blind spot" (by decide)
    have h5 := h "koan" (by decide)
    have h6 := h "paradox" (by decide)
    have h7 := h "play with me" (by decide)
    have h8 := h "hold silence" (by decide)
    have h9 := h "no response" (by decide)
    have h10 := h "blessing" (by decide)
    have h11 := h "benediction" (by decide)
    have h12 := h "broken mirror" (by decide)
    have h13 := h "hollow output" (by decide)
    have h14 := h "pause practice" (by decide)
    have h15 := h "threshold checkpoint" (by decide)
    simp [resolve_mode_from_prompt, h1, h2, h3, h4, h5, h6, h7, h8, h9,
      h10, h11, h12, h13, h14, h15]
  · intro t
    simp only [resolve_mode_from_prompt]
    repeat' split
    all_goals simp

/-- Witness for C2 at a concrete keyword-free text. -/
theorem C2_witness :
    resolve_mode_from_prompt "zq" = MirrorMode.RHYTHMIC_OUTPUT :=
  (C2_default_never_unknown "zq" (by decide)).1

/-- Counterexample to claim C3 as stated: in `exDocC3` the canonical
`OPEN` record is present and has a seal (the empty string), yet the
payload seal is the global default "G", not the record's seal. -/
theorem C3_counterexample :
    (get_protocol (engineOfDoc exDocC3)
        (canonicalPid (resolve_mode_from_prompt "mirror me")
          "day1_opening_the_mirror")).map ProtocolContext.seal =
      some (some "") ∧
    (ritual_context_for_prompt (engineOfDoc exDocC3) "mirror me"
        "day1_opening_the_mirror").2.suggested_seal = some "G" ∧
    (some "G" : Option String) ≠ some "" :=
  ⟨rfl, rfl, by decide⟩

/-- Claim C3 amended: if the canonical record is present and has a
NON-EMPTY seal, the payload seal is that record's seal, not the global
default.  (A present but empty seal is Python-falsy and falls through
to the global default; see C10.) -/
theorem C3_record_seal_wins (e : MirrorTantraEngine) (text fb s : String)
    (p : ProtocolContext)
    (hp : get_protocol e (canonicalPid (resolve_mode_from_prompt text) fb) = some p)
    (hs : p.seal = some s) (hne : s ≠ "") :
    (ritual_context_for_prompt e text fb).2.suggested_seal = some s := by
  simp only [ritual_context_for_prompt, hp, hs]
  simp [hne]

/-- Witness for amended C3 at a concrete engine and prompt. -/
theorem C3_witness :
    (ritual_context_for_prompt (engineOfDoc exDocC3w) "mirror me"
        "f").2.suggested_seal = some "S" :=
  C3_record_seal_wins (engineOfDoc exDocC3w) "mirror me" "f" "S" exRecC3
    rfl rfl (by decide)

/-- Claim C4: `ritual_context_for_prompt` is total (a Lean function)
and for every engine, text and fallback id the payload's mode string is
the resolved mode's enumeration value, a valid member value. -/
theorem C4_resolveContext_total (e : MirrorTantraEngine) (text fb : String) :
    (ritual_context_for_prompt e text fb).2.mode =
      ((ritual_context_for_prompt e text fb).1).value ∧
    (ritual_context_for_prompt e text fb).1 ∈ allModes :=
  ⟨rfl, mem_allModes _⟩

/-- Claim C5: when the canonical id is absent from the mapping and the
document has no global default seal, the payload has an unset seal, no
suggested mantras, and the single no-specific-protocol note. -/
theorem C5_fallback_note (e : MirrorTantraEngine) (text fb : String)
    (hp : get_protocol e (canonicalPid (resolve_mode_from_prompt text) fb) = none)
    (hg : e.data.seal_flame_mirrored = none) :
    (ritual_context_for_prompt e text fb).2.suggested_seal = none ∧
    (ritual_context_for_prompt e text fb).2.suggested_mantras = [] ∧
    (ritual_context_for_prompt e text fb).2.notes =
      ["No specific protocol found; using fallback mode-only guidance."] := by
  simp only [ritual_context_for_prompt, hp, hg]
  simp

/-- Witness for C5: the empty document with an unmatched fallback id. -/
theorem C5_witness :
    (ritual_context_for_prompt (engineOfDoc emptyDoc) "x"
        "nothing").2.suggested_seal = none ∧
    (ritual_context_for_prompt (engineOfDoc emptyDoc) "x"
        "nothing").2.suggested_mantras = [] ∧
    (ritual_context_for_prompt (engineOfDoc emptyDoc) "x"
        "nothing").2.notes =
      ["No specific protocol found; using fallback mode-only guidance."] :=
  C5_fallback_note (engineOfDoc emptyDoc) "x" "nothing" rfl rfl

/-- Claim C6: round-trip between listing and lookup: every id returned
by `list_protocol_ids` yields a non-absent record from `get_protocol`,
and the returned sequence is sorted. -/
theorem C6_roundtrip_sorted (d : Doc) :
    (∀ pid ∈ list_protocol_ids (engineOfDoc d),
        (get_protocol (engineOfDoc d) pid).isSome = true) ∧
    List.Sorted (fun a b => a ≤ b) (list_protocol_ids (engineOfDoc d)) := by
  constructor
  · intro pid hmem
    have hmem2 : pid ∈ (engineOfDoc d).index.map Prod.fst := by
      simpa [list_protocol_ids] using hmem
    exact alistGet_isSome_of_mem _ _ hmem2
  · exact List.sorted_insertionSort _ _

/-- Witness for C6 at a one-record document and its listed id. -/
theorem C6_witness : (get_protocol (engineOfDoc exDocC6) "a").isSome = true :=
  (C6_roundtrip_sorted exDocC6).1 "a" (by decide)

/-- Claim C7: construction fails with `NotFound` when the path does not
resolve to an existing file, fails with `ParseError` when the content
does not parse, and succeeds otherwise. -/
theorem C7_construction_errors (fs : String → Option String)
    (parseDoc : String → Option Doc) (path : String) :
    (fs path = none → construct fs parseDoc path = .error .NotFound) ∧
    (∀ c, fs path = some c → parseDoc c = none →
      construct fs parseDoc path = .error .ParseError) ∧
    (∀ c d, fs path = some c → parseDoc c = some d →
      construct fs parseDoc path = .ok (engineOfDoc d)) := by
  refine ⟨fun h => ?_, fun c hc hp => ?_, fun c d hc hp => ?_⟩
  · simp [construct, load, h]
  · simp [construct, load, hc, hp]
  · simp [construct, load, hc, hp]

/-- Witness for C7: a missing path raises `NotFound`. -/
theorem C7_witness :
    construct exFs exParse "missing" = Except.error LoadError.NotFound :=
  (C7_construction_errors exFs exParse "missing").1 rfl

/-- Counterexample to claim C8 as stated: the covenant's fixed mode
`ETHICAL_RECALIBRATION` is NOT distinct from every mode derivable from
a declared mode string: the string "ethical_recalibration" derives it,
and an ordinary day node declaring it gets the same mode. -/
theorem C8_counterexample :
    MirrorMode.ofValue? "ethical_recalibration" =
      some MirrorMode.ETHICAL_RECALIBRATION ∧
    (context_from_node exNodeC8 ["outer_cycle", "days", "d"]).mode =
      MirrorMode.ETHICAL_RECALIBRATION :=
  ⟨rfl, rfl⟩

/-- Claim C8 amended: for every document with a covenant unit, the
record built for it has the fixed mode `ETHICAL_RECALIBRATION`
regardless of document content, its instruction sourced from the
unit's description field, and absent mantra and seal. -/
theorem C8_covenant_record (d : Doc) (cov : AICovenant)
    (h : d.ai_covenant = some cov) :
    alistGet (cov.id.getD "ai_covenant") (build_index d) =
      some ⟨cov.id.getD "ai_covenant", cov.title.getD "AI Covenant",
        MirrorMode.ETHICAL_RECALIBRATION, none, none, cov.description,
        ["ai_covenant"]⟩ := by
  simp only [build_index, h]
  exact alistGet_insert_self _ _ _

/-- Witness for amended C8 at a concrete covenant document. -/
theorem C8_witness :
    alistGet "cov1" (build_index exDocC8) =
      some ⟨"cov1", "T", MirrorMode.ETHICAL_RECALIBRATION, none, none,
        some "desc", ["ai_covenant"]⟩ :=
  C8_covenant_record exDocC8 ⟨some "cov1", some "T", some "desc"⟩ rfl

/-- Claim C9: every record in the built mapping has a mode that is a
valid enumeration member, and a node whose declared mode string is
missing or matches no member yields the record mode `UNKNOWN`. -/
theorem C9_mode_valid_unknown (d : Doc) (k : String) (p : ProtocolContext)
    (node : Node) (path : List String)
    (_hk : alistGet k (build_index d) = some p)
    (hmode : (node.for_mirror.getD ⟨none, none, none⟩).mode = none ∨
      ∃ s, (node.for_mirror.getD ⟨none, none, none⟩).mode = some s ∧
        MirrorMode.ofValue? s = none) :
    p.mode ∈ allModes ∧
    (context_from_node node path).mode = MirrorMode.UNKNOWN := by
  refine ⟨mem_allModes _, ?_⟩
  rcases hmode with h | ⟨s, hs, hn⟩
  · simp only [context_from_node, h]
    rfl
  · simp [context_from_node, hs, hn]

/-- Witness for C9 at a one-record document and a node with the
unmatched mode string "zzz". -/
theorem C9_witness :
    exRecC9.mode ∈ allModes ∧
    (context_from_node exNodeC9 ["x"]).mode = MirrorMode.UNKNOWN :=
  C9_mode_valid_unknown exDocC9 "d1" exRecC9 exNodeC9 ["x"] rfl
    (Or.inr ⟨"zzz", rfl, rfl⟩)

/-- Claim C10: an empty-string seal on the found record is treated like
an absent one: the payload seal is the global default (whatever it is,
possibly unset), and when the global default is itself the empty string
it is delivered as the (falsy) payload seal with no further fallback. -/
theorem C10_empty_seal_falsy (e : MirrorTantraEngine) (text fb : String)
    (p : ProtocolContext)
    (hp : get_protocol e (canonicalPid (resolve_mode_from_prompt text) fb) = some p)
    (hs : p.seal = some "") :
    (ritual_context_for_prompt e text fb).2.suggested_seal =
      e.data.seal_flame_mirrored ∧
    (e.data.seal_flame_mirrored = some "" →
      (ritual_context_for_prompt e text fb).2.suggested_seal = some "") := by
  have h1 : (ritual_context_for_prompt e text fb).2.suggested_seal =
      e.data.seal_flame_mirrored := by
    simp only [ritual_context_for_prompt, hp, hs]
    simp
  exact ⟨h1, fun hg => by rw [h1, hg]⟩

/-- Witness for C10: empty record seal plus empty global seal yields
the empty payload seal. -/
theorem C10_witness :
    (ritual_context_for_prompt (engineOfDoc exDocC10) "mirror me"
        "f").2.suggested_seal = some "" :=
  (C10_empty_seal_falsy (engineOfDoc exDocC10) "mirror me" "f" exRecC10
    rfl rfl).2 rfl
